import Mathlib

/-!
# Verification of the Telegram auto-forward bot's relay pipeline

Shallow embedding of the message relay pipeline of the `Bots` repository
(`src/index.js` and its variants): the sliding-window rate limiter
(`checkRateLimit`), the filter evaluator (`matchesFilters`), the clean
forwarder (`cleanForwardMessage`), the relay entry point (`forwardMessage`),
the `channel_post` handler variant, and the startup configuration loading
(`config.js` / `index.js` initialization).

Conventions of the embedding:
* JS numbers used as chat ids, timestamps (`Date.now()` milliseconds) and
  counters are modelled as `Int`.
* The `messageCounter` JS `Map` is modelled as a total function
  `ChatId → List Int`; a key that was never set maps to `[]`, matching
  `messageCounter.get(chatId) || []`.
* A Telegram message object is modelled as a structure of `Option` fields,
  one per duck-typed content key probed by the source; `none` means the key
  is absent from the object.
* The transport (`node-telegram-bot-api`) is modelled as an oracle
  `send : ChatId → Bool` saying whether a send to that chat succeeds
  (`false` = the transport call throws, which the source catches).
-/

namespace Bots

/-- Chat/channel identifier: a platform integer (`msg.chat.id`). -/
abbrev ChatId := Int

/-- `botConfig.rateLimit` (`src/index.js` lines 47-50): fields come from
`parseInt`, so they are integers with no further validation. -/
structure RateLimit where
  maxMessages : Int
  timeWindow : Int
  deriving Repr, DecidableEq

/-- `botConfig.filters` (`src/index.js` lines 43-46). -/
structure Filters where
  keywords : List String
  types : List String
  deriving Repr, DecidableEq

/-- The slice of `botConfig` read by the relay pipeline
(`src/index.js` lines 39-54). -/
structure BotConfig where
  sourceChats : List ChatId
  destinationChats : List ChatId
  filters : Filters
  rateLimit : RateLimit
  logChannel : String
  deriving Repr

/-- The `messageCounter` map: per-chat list of timestamps, `[]` when unset. -/
abbrev Counter := ChatId → List Int

/-- `checkRateLimit` (`src/index.js` lines 245-259).  Reads the chat's
stored timestamps, filters to those with `now - timestamp < timeWindow*1000`
(`Array.prototype.filter` builds a fresh array; the map itself is untouched),
rejects without writing when the pruned count reaches `maxMessages`, and
otherwise stores the pruned list with `now` appended. -/
def checkRateLimit (rl : RateLimit) (counter : Counter) (chatId : ChatId)
    (now : Int) : Bool × Counter :=
  let chatMessages := counter chatId
  let recentMessages := chatMessages.filter fun timestamp =>
    now - timestamp < rl.timeWindow * 1000
  if (recentMessages.length : Int) ≥ rl.maxMessages then
    (false, counter)
  else
    (true, fun c => if c = chatId then recentMessages ++ [now] else counter c)

/-- JavaScript `Array.prototype.slice(start)` with a possibly negative
`start`: a negative start counts from the end, clamped at 0; a nonnegative
start is clamped at the length. -/
def jsSliceFrom (l : List Int) (start : Int) : List Int :=
  let b : Int := if start < 0 then max ((l.length : Int) + start) 0
                 else min start (l.length : Int)
  l.drop b.toNat

namespace V2

/-- `checkRateLimit`, second variant (`src/index.js` lines 1119-1139, and
identically `part_002` lines 869-889): same as the first variant plus a
"cleanup" step — after a successful append, if the stored list exceeds
`2 * maxMessages` entries it is re-set to `slice(-maxMessages)`, the most
recent `maxMessages` entries. -/
def checkRateLimit (rl : RateLimit) (counter : Counter) (chatId : ChatId)
    (now : Int) : Bool × Counter :=
  let chatMessages := counter chatId
  let recentMessages := chatMessages.filter fun timestamp =>
    now - timestamp < rl.timeWindow * 1000
  if (recentMessages.length : Int) ≥ rl.maxMessages then
    (false, counter)
  else
    let updated := recentMessages ++ [now]
    if (updated.length : Int) > rl.maxMessages * 2 then
      (true, fun c => if c = chatId then jsSliceFrom updated (-rl.maxMessages)
                      else counter c)
    else
      (true, fun c => if c = chatId then updated else counter c)

end V2

/-- Run a sequence of `checkRateLimit` calls for one chat at the given
timestamps (first variant), returning the per-call results and final map. -/
def runChecks (rl : RateLimit) (counter : Counter) (chatId : ChatId) :
    List Int → List Bool × Counter
  | [] => ([], counter)
  | t :: ts =>
    let r := checkRateLimit rl counter chatId t
    let rest := runChecks rl r.2 chatId ts
    (r.1 :: rest.1, rest.2)

/-- Run a sequence of `V2.checkRateLimit` calls, each for an arbitrary chat
at an arbitrary timestamp, returning the final map. -/
def runChecksV2 (rl : RateLimit) (counter : Counter) :
    List (ChatId × Int) → Counter
  | [] => counter
  | (c, t) :: rest => runChecksV2 rl (V2.checkRateLimit rl counter c t).2 rest

/-- A Telegram message object, as duck-typed by the source: one `Option`
field per content key the source probes (`none` = key absent).  Real
Telegram messages carry exactly one of these content keys, so the fixed
probing order below coincides with the `Object.keys` insertion order the
source relies on.  Payloads are reduced to the data the pipeline reads
(file ids as strings, poll question/options, location coordinates). -/
structure Message where
  chatId : ChatId
  message_id : Int
  text : Option String := none
  photo : Option (List String) := none
  video : Option String := none
  document : Option String := none
  audio : Option String := none
  voice : Option String := none
  video_note : Option String := none
  sticker : Option String := none
  location : Option (Int × Int) := none
  poll : Option (String × List String) := none
  animation : Option String := none
  caption : Option String := none
  deriving Repr, DecidableEq

/-- The `messageType` probe of the first `matchesFilters`
(`src/index.js` lines 262-264): the first key of the message present among
`['text', 'photo', 'video', 'document']`.  `undefined` is `none`. -/
def messageTypeV1 (m : Message) : Option String :=
  if m.text.isSome then some "text"
  else if m.photo.isSome then some "photo"
  else if m.video.isSome then some "video"
  else if m.document.isSome then some "document"
  else none

/-- The `messageType` probe used for logging in `forwardMessage`
(`src/index.js` lines 656-658): first key present among all eleven
content keys. -/
def messageTypeFull (m : Message) : Option String :=
  if m.text.isSome then some "text"
  else if m.photo.isSome then some "photo"
  else if m.video.isSome then some "video"
  else if m.document.isSome then some "document"
  else if m.audio.isSome then some "audio"
  else if m.voice.isSome then some "voice"
  else if m.video_note.isSome then some "video_note"
  else if m.sticker.isSome then some "sticker"
  else if m.location.isSome then some "location"
  else if m.poll.isSome then some "poll"
  else if m.animation.isSome then some "animation"
  else none

/-- The content key selected by `cleanForwardMessage`'s `if`/`else if`
chain (`src/index.js` lines 557-616).  Unlike the key probes above, the
chain tests *truthiness* of the values: an empty string `msg.text` is
falsy, so an empty text falls through; media/array payloads are objects
and hence truthy whenever the key is present. -/
def contentKind (m : Message) : Option String :=
  if m.text.getD "" != "" then some "text"
  else if m.photo.isSome then some "photo"
  else if m.video.isSome then some "video"
  else if m.document.isSome then some "document"
  else if m.audio.isSome then some "audio"
  else if m.voice.isSome then some "voice"
  else if m.video_note.isSome then some "video_note"
  else if m.sticker.isSome then some "sticker"
  else if m.location.isSome then some "location"
  else if m.poll.isSome then some "poll"
  else if m.animation.isSome then some "animation"
  else none

/-- The transport operation each `cleanForwardMessage` branch invokes. -/
def sendOpFor : String → String
  | "text" => "sendMessage"
  | "photo" => "sendPhoto"
  | "video" => "sendVideo"
  | "document" => "sendDocument"
  | "audio" => "sendAudio"
  | "voice" => "sendVoice"
  | "video_note" => "sendVideoNote"
  | "sticker" => "sendSticker"
  | "location" => "sendLocation"
  | "poll" => "sendPoll"
  | "animation" => "sendAnimation"
  | _ => "unknown"

/-- `String.prototype.toLowerCase` on the character list (ASCII simple
mapping, which is all the source's keyword matching relies on). -/
def toLowerChars (s : String) : List Char := s.toList.map Char.toLower

/-- JavaScript `hay.includes(sub)`: substring containment
(`sub = ""` is always contained). -/
def jsIncludes (hay sub : List Char) : Bool := decide (sub <:+: hay)

/-- `matchesFilters`, first variant (`src/index.js` lines 261-280).
When no probed key is present, `filters.types.includes(undefined)` is
`false` (the types list holds only strings), so the message is rejected. -/
def matchesFilters (flt : Filters) (m : Message) : Bool :=
  match messageTypeV1 m with
  | none => false
  | some messageType =>
    if !(flt.types.contains messageType) then false
    else if messageType == "text" && flt.keywords.length > 0 then
      flt.keywords.any fun keyword =>
        jsIncludes (toLowerChars (m.text.getD "")) (toLowerChars keyword)
    else true

/-- `matchesFilters` with the one fallible access made explicit:
`msg.text.toLowerCase()` (line 272) throws if the `text` key is absent
or not a string when the keyword branch runs.  `Except.error` models the
thrown `TypeError`. -/
def matchesFiltersE (flt : Filters) (m : Message) : Except String Bool :=
  match messageTypeV1 m with
  | none => .ok false
  | some messageType =>
    if !(flt.types.contains messageType) then .ok false
    else if messageType == "text" && flt.keywords.length > 0 then
      match m.text with
      | none => .error "TypeError: cannot read toLowerCase of undefined"
      | some s => .ok (flt.keywords.any fun keyword =>
          jsIncludes (toLowerChars s) (toLowerChars keyword))
    else .ok true

/-- Structured log events the relay emits (`logger.info`/`warn`/`error`
calls in `forwardMessage` and `cleanForwardMessage`). -/
inductive LogEvent where
  | messageForwarded (source destination : ChatId) (messageId : Int)
      (ty : Option String)
  | cleanForwardError (messageId : Int) (source destination : ChatId)
  | rateLimitWarn (chat : ChatId)
  | forwardError (messageId : Int) (source : ChatId)
  | logChannelNotice (channel : String) (source destination : ChatId)
      (ty : Option String)
  deriving Repr, DecidableEq

/-- Whether a log event is of kind `message_forwarded`. -/
def LogEvent.isForwarded : LogEvent → Bool
  | .messageForwarded .. => true
  | _ => false

/-- One outbound transport call: destination chat and API operation. -/
structure SendAttempt where
  dest : ChatId
  op : String
  deriving Repr, DecidableEq

/-- `cleanForwardMessage` (`src/index.js` lines 555-629).  Exactly one
branch of the `if`/`else if` chain fires — the one for `contentKind`; its
single `await` send either succeeds or throws, and the surrounding `try`
converts a throw into a `clean_forward_error` log and `return false`.
When no branch fires (no truthy content key) control reaches the final
`return true` having attempted no send at all. -/
def cleanForwardMessage (send : ChatId → Bool) (m : Message)
    (destChat : ChatId) : Bool × List SendAttempt × List LogEvent :=
  match contentKind m with
  | none => (true, [], [])
  | some ty =>
    if send destChat then
      (true, [⟨destChat, sendOpFor ty⟩], [])
    else
      (false, [⟨destChat, sendOpFor ty⟩],
        [.cleanForwardError m.message_id m.chatId destChat])

/-- Result of the fan-out loop: per-destination `success` values in loop
order, transport calls attempted, logs, and whether the loop ran to
completion (`false` = the outer `catch` of `forwardMessage` fired). -/
structure LoopResult where
  outcomes : List (ChatId × Bool)
  attempts : List SendAttempt
  logs : List LogEvent
  completed : Bool
  deriving Repr, DecidableEq

/-- The `for (const destChat of config.destinationChats)` loop of
`forwardMessage` (`src/index.js` lines 647-671).  On success it logs
`message_forwarded` and, when `config.logChannel` is set (non-empty
string), also sends a notice there; that notice send is the one call in
the loop NOT guarded by an inner catch, so `logSend` failing aborts the
loop via the outer catch (`forward_error`).  A failed destination send
only yields `success = false` from `cleanForwardMessage` and the loop
continues. -/
def forwardLoop (cfg : BotConfig) (send : ChatId → Bool)
    (logSend : String → Bool) (m : Message) :
    List ChatId → LoopResult
  | [] => ⟨[], [], [], true⟩
  | destChat :: rest =>
    let r := cleanForwardMessage send m destChat
    if r.1 then
      let fwd := LogEvent.messageForwarded m.chatId destChat m.message_id
        (messageTypeFull m)
      if cfg.logChannel != "" then
        if logSend cfg.logChannel then
          let k := forwardLoop cfg send logSend m rest
          ⟨(destChat, true) :: k.outcomes, r.2.1 ++ k.attempts,
            r.2.2 ++ [fwd,
              .logChannelNotice cfg.logChannel m.chatId destChat
                (messageTypeFull m)] ++ k.logs,
            k.completed⟩
        else
          ⟨[(destChat, true)], r.2.1,
            r.2.2 ++ [fwd, .forwardError m.message_id m.chatId], false⟩
      else
        let k := forwardLoop cfg send logSend m rest
        ⟨(destChat, true) :: k.outcomes, r.2.1 ++ k.attempts,
          r.2.2 ++ [fwd] ++ k.logs, k.completed⟩
    else
      let k := forwardLoop cfg send logSend m rest
      ⟨(destChat, false) :: k.outcomes, r.2.1 ++ k.attempts,
        r.2.2 ++ k.logs, k.completed⟩

/-- Result of one orchestration pass. -/
structure RelayResult where
  outcomes : List (ChatId × Bool)
  attempts : List SendAttempt
  logs : List LogEvent
  counter : Counter

/-- `forwardMessage` (`src/index.js` lines 632-679): source check, then
filters, then rate limit, then the fan-out loop. -/
def forwardMessage (cfg : BotConfig) (send : ChatId → Bool)
    (logSend : String → Bool) (counter : Counter) (now : Int)
    (m : Message) : RelayResult :=
  if !(cfg.sourceChats.contains m.chatId) then ⟨[], [], [], counter⟩
  else if !(matchesFilters cfg.filters m) then ⟨[], [], [], counter⟩
  else
    let rc := checkRateLimit cfg.rateLimit counter m.chatId now
    if !rc.1 then ⟨[], [], [.rateLimitWarn m.chatId], rc.2⟩
    else
      let lr := forwardLoop cfg send logSend m cfg.destinationChats
      ⟨lr.outcomes, lr.attempts, lr.logs, rc.2⟩

namespace P2

/-- The key probe of `part_002`'s `matchesFilters` (lines 894-896): the
first key of the message that appears in `filters.types` itself.  Only
content keys are modelled; the message's bookkeeping keys (`chat`,
`message_id`, `caption`, ...) are never listed in a types configuration. -/
def messageKeyInTypes (types : List String) (m : Message) : Option String :=
  if m.text.isSome && types.contains "text" then some "text"
  else if m.photo.isSome && types.contains "photo" then some "photo"
  else if m.video.isSome && types.contains "video" then some "video"
  else if m.document.isSome && types.contains "document" then some "document"
  else if m.audio.isSome && types.contains "audio" then some "audio"
  else if m.voice.isSome && types.contains "voice" then some "voice"
  else if m.video_note.isSome && types.contains "video_note" then
    some "video_note"
  else if m.sticker.isSome && types.contains "sticker" then some "sticker"
  else if m.location.isSome && types.contains "location" then some "location"
  else if m.poll.isSome && types.contains "poll" then some "poll"
  else if m.animation.isSome && types.contains "animation" then
    some "animation"
  else none

/-- `matchesFilters`, `part_002` variant (lines 892-914). -/
def matchesFilters (flt : Filters) (m : Message) : Bool :=
  match messageKeyInTypes flt.types m with
  | none => false
  | some messageType =>
    if messageType == "text" && flt.keywords.length > 0 then
      flt.keywords.any fun keyword =>
        jsIncludes (toLowerChars (m.text.getD "")) (toLowerChars keyword)
    else true

/-- The per-destination `copyMessage` loop of the `channel_post` handler
(`part_002` lines 940-963): each iteration has its own `try`/`catch`, so
failures only bump `statistics.failedMessages`.  Returns the transport
calls attempted and the forwarded/failed statistics increments. -/
def copyLoop (copySend : ChatId → Bool) :
    List ChatId → List SendAttempt × Nat × Nat
  | [] => ([], 0, 0)
  | destId :: rest =>
    let k := copyLoop copySend rest
    if copySend destId then
      (⟨destId, "copyMessage"⟩ :: k.1, k.2.1 + 1, k.2.2)
    else
      (⟨destId, "copyMessage"⟩ :: k.1, k.2.1, k.2.2 + 1)

/-- Result of one `channel_post` handler pass (`part_002`). -/
structure HandlerResult where
  attempts : List SendAttempt
  counter : Counter
  forwardedCount : Nat
  failedCount : Nat

/-- The `bot.on('channel_post')` handler (`part_002` lines 917-969):
source check, then **rate limit**, then filters, then the `copyMessage`
fan-out.  Note the rate check precedes the filter check in this variant.
Pure logging calls and the trailing `saveConfig()` (file persistence) are
omitted as observability/persistence side effects. -/
def channelPostHandler (cfg : BotConfig) (copySend : ChatId → Bool)
    (counter : Counter) (now : Int) (m : Message) : HandlerResult :=
  if !(cfg.sourceChats.contains m.chatId) then ⟨[], counter, 0, 0⟩
  else
    let rc := V2.checkRateLimit cfg.rateLimit counter m.chatId now
    if !rc.1 then ⟨[], rc.2, 0, 0⟩
    else if !(matchesFilters cfg.filters m) then ⟨[], rc.2, 0, 0⟩
    else
      let cl := copyLoop copySend cfg.destinationChats
      ⟨cl.1, rc.2, cl.2.1, cl.2.2⟩

end P2

/-! ## Startup configuration loading (`src/config.js`, `src/index.js`) -/

/-- The environment variables startup reads (others are irrelevant to the
rate-limit claims).  `none` = variable unset. -/
structure Env where
  botToken : Option String
  rateLimitMax : Option String
  rateLimitWindow : Option String
  deriving Repr, DecidableEq

/-- JavaScript `x || d` for an environment string: unset or empty (falsy)
falls back to the default. -/
def jsOr (o : Option String) (d : String) : String :=
  match o with
  | none => d
  | some s => if s == "" then d else s

/-- Nat value of a digit prefix; `none` when there is no digit
(`parseInt` yields `NaN`). -/
def digitsPrefixVal (cs : List Char) : Option Nat :=
  let ds := cs.takeWhile (·.isDigit)
  if ds.isEmpty then none
  else some (ds.foldl (fun a c => a * 10 + (c.toNat - '0'.toNat)) 0)

/-- Whitespace trimming on the character list (`String.prototype.trim`). -/
def trimChars (cs : List Char) : List Char :=
  ((cs.dropWhile (·.isWhitespace)).reverse.dropWhile (·.isWhitespace)).reverse

/-- JavaScript `parseInt(s)` (radix 10): skip whitespace, optional sign,
longest digit prefix; `none` models `NaN`. -/
def jsParseInt (s : String) : Option Int :=
  match trimChars s.toList with
  | '-' :: rest => (digitsPrefixVal rest).map fun n => -(n : Int)
  | '+' :: rest => (digitsPrefixVal rest).map fun n => (n : Int)
  | cs => (digitsPrefixVal cs).map fun n => (n : Int)

/-- The rate-limit fields as loaded at startup: `parseInt` results, so
possibly `NaN` (`none`) and possibly negative. -/
structure LoadedRateLimit where
  maxMessages : Option Int
  timeWindow : Option Int
  deriving Repr, DecidableEq

/-- The startup-validated part of the configuration. -/
structure LoadedConfig where
  rateLimit : LoadedRateLimit
  deriving Repr, DecidableEq

/-- The rate-limit part of the config built from the environment
(`src/config.js` lines 20-23, identically `src/index.js` lines 47-50):
`parseInt(process.env.RATE_LIMIT_MAX || '10')` etc.  No range, sign or
NaN check is applied. -/
def loadConfig (env : Env) : LoadedConfig :=
  ⟨⟨jsParseInt (jsOr env.rateLimitMax "10"),
    jsParseInt (jsOr env.rateLimitWindow "60")⟩⟩

/-- `isValidBotToken` (`src/index.js` lines 28-31): the regular expression
`^\d+:[A-Za-z0-9_-]\x7b30,\x7d$`. -/
def isValidBotToken (t : String) : Bool :=
  let cs := t.toList
  let ds := cs.takeWhile (·.isDigit)
  let rest := cs.drop ds.length
  !ds.isEmpty &&
    match rest with
    | ':' :: tail =>
      decide (tail.length ≥ 30) &&
        tail.all fun c => c.isAlphanum || c == '_' || c == '-'
    | _ => false

/-- Outcome of process startup. -/
inductive StartupOutcome where
  | refused (reason : String)
  | started (cfg : LoadedConfig)
  deriving Repr, DecidableEq

/-- The startup sequence of `src/index.js`: exit if `BOT_TOKEN` is unset
or empty (lines 22-25), build `botConfig` from the environment with no
validation (lines 34-55), then exit if the trimmed token fails the format
check (lines 60-64); otherwise the bot starts with whatever rate-limit
values were loaded. -/
def startup (env : Env) : StartupOutcome :=
  match env.botToken with
  | none => .refused "BOT_TOKEN environment variable is required"
  | some tok =>
    if tok == "" then .refused "BOT_TOKEN environment variable is required"
    else
      let cfg := loadConfig env
      if isValidBotToken (String.mk (trimChars tok.toList)) then .started cfg
      else .refused "Invalid bot token format"

/-! ## Helper lemmas -/

/-- Removing at least one element strictly shrinks a filtered list. -/
theorem length_filter_lt_of_mem_not {α : Type} (p : α → Bool) :
    ∀ (l : List α) (x : α), x ∈ l → p x = false →
      (l.filter p).length < l.length := by
  intro l
  induction l with
  | nil => intro x hx; cases hx
  | cons a t ih =>
    intro x hx hpx
    rcases List.mem_cons.mp hx with rfl | hmem
    · simp [List.filter_cons, hpx]
      calc (t.filter p).length ≤ t.length := t.length_filter_le p
        _ < t.length + 1 := Nat.lt_succ_self _
    · by_cases hpa : p a
      · simpa [List.filter_cons, hpa] using Nat.succ_lt_succ (ih x hmem hpx)
      · simp only [List.filter_cons, Bool.not_eq_true] at *
        simp [hpa]
        calc (t.filter p).length < t.length := ih x hmem hpx
          _ ≤ t.length + 1 := Nat.le_succ _

/-- While fewer timestamps are stored than `maxMessages` and every stored and
incoming timestamp lies in a span shorter than the window, every call is
admitted and the store accumulates exactly the call timestamps in order. -/
theorem runChecks_admits (rl : RateLimit) (chat : ChatId) (a b : Int)
    (hw : b - a < rl.timeWindow * 1000) :
    ∀ (ts : List Int) (counter : Counter) (done : List Int),
      counter chat = done →
      ((done.length : Int) + ts.length ≤ rl.maxMessages) →
      (∀ t ∈ done, a ≤ t ∧ t ≤ b) →
      (∀ t ∈ ts, a ≤ t ∧ t ≤ b) →
      (runChecks rl counter chat ts).1 = List.replicate ts.length true ∧
      (runChecks rl counter chat ts).2 chat = done ++ ts := by
  intro ts
  induction ts with
  | nil => intro counter done hc _ _ _; simp [runChecks, hc]
  | cons t ts ih =>
    intro counter done hc hlen hdone hts
    have hta : a ≤ t := (hts t (List.mem_cons_self t ts)).1
    have htb : t ≤ b := (hts t (List.mem_cons_self t ts)).2
    have hfil : done.filter (fun u => decide (t - u < rl.timeWindow * 1000))
        = done := by
      apply List.filter_eq_self.mpr
      intro u hu
      have hua := (hdone u hu).1
      have hub := (hdone u hu).2
      simp only [decide_eq_true_eq]
      omega
    have hlt : ¬ ((done.length : Int) ≥ rl.maxMessages) := by
      have : (ts.length : Int) ≥ 0 := Int.natCast_nonneg _
      simp only [List.length_cons] at hlen
      push_cast at hlen
      omega
    have hstep : checkRateLimit rl counter chat t =
        (true, fun c => if c = chat then done ++ [t] else counter c) := by
      unfold checkRateLimit
      simp only [hc, hfil, if_neg hlt]
    have hnext : (fun c => if c = chat then done ++ [t] else counter c) chat
        = done ++ [t] := by
      simp
    have := ih (fun c => if c = chat then done ++ [t] else counter c)
      (done ++ [t]) hnext
      (by simp only [List.length_append, List.length_cons, List.length_nil,
            List.length_singleton] at *
          push_cast at *
          omega)
      (by intro u hu
          rcases List.mem_append.mp hu with h | h
          · exact hdone u h
          · rcases List.mem_singleton.mp h with rfl; exact ⟨hta, htb⟩)
      (fun u hu => hts u (List.mem_cons_of_mem _ hu))
    refine ⟨?_, ?_⟩
    · simp only [runChecks, hstep, List.length_cons, List.replicate_succ]
      exact congrArg (true :: ·) this.1
    · simp only [runChecks, hstep]
      rw [this.2]
      simp

/-- A JS `slice` never lengthens a list. -/
theorem jsSliceFrom_length_le (l : List Int) (s : Int) :
    (jsSliceFrom l s).length ≤ l.length := by
  simp only [jsSliceFrom, List.length_drop]
  omega

/-- One `V2.checkRateLimit` call preserves the per-chat bound
`length ≤ maxMessages`. -/
theorem checkRateLimitV2_bound (rl : RateLimit)
    (counter : Counter) (chat : ChatId) (now : Int)
    (h : ∀ c, ((counter c).length : Int) ≤ rl.maxMessages) :
    ∀ c, (((V2.checkRateLimit rl counter chat now).2 c).length : Int)
      ≤ rl.maxMessages := by
  intro c
  simp only [V2.checkRateLimit]
  split
  · exact h c
  · next hcond =>
    have hlen : (((counter chat).filter fun timestamp =>
        decide (now - timestamp < rl.timeWindow * 1000)).length : Int)
        < rl.maxMessages := by
      omega
    split
    · by_cases hc : c = chat
      · subst hc
        simp only [if_pos rfl]
        have h1 := jsSliceFrom_length_le
          (((counter c).filter fun timestamp =>
            decide (now - timestamp < rl.timeWindow * 1000)) ++ [now])
          (-rl.maxMessages)
        have h2 : ((((counter c).filter fun timestamp =>
            decide (now - timestamp < rl.timeWindow * 1000)) ++ [now]).length
            : Int) ≤ rl.maxMessages := by
          simp only [List.length_append, List.length_cons, List.length_nil]
          push_cast
          omega
        calc ((jsSliceFrom (((counter c).filter fun timestamp =>
              decide (now - timestamp < rl.timeWindow * 1000)) ++ [now])
              (-rl.maxMessages)).length : Int)
            ≤ ((((counter c).filter fun timestamp =>
              decide (now - timestamp < rl.timeWindow * 1000)) ++ [now]).length
              : Int) := by exact_mod_cast h1
          _ ≤ rl.maxMessages := h2
      · simp only [if_neg hc]
        exact h c
    · by_cases hc : c = chat
      · subst hc
        have hgoal : ((((counter c).filter fun timestamp =>
            decide (now - timestamp < rl.timeWindow * 1000)) ++ [now]).length
            : Int) ≤ rl.maxMessages := by
          rw [List.length_append, List.length_singleton]
          push_cast
          omega
        simpa using hgoal
      · simp only [if_neg hc]
        exact h c

/-- The bound `length ≤ maxMessages` is invariant under any call sequence. -/
theorem runChecksV2_inv (rl : RateLimit) :
    ∀ (calls : List (ChatId × Int)) (counter : Counter),
      (∀ c, ((counter c).length : Int) ≤ rl.maxMessages) →
      ∀ c, (((runChecksV2 rl counter calls) c).length : Int)
        ≤ rl.maxMessages := by
  intro calls
  induction calls with
  | nil => intro counter h c; exact h c
  | cons p rest ih =>
    intro counter h c
    exact ih _ (checkRateLimitV2_bound rl counter p.1 p.2 h) c

/-- A message without its `text` key can never be typed `"text"` by the
first-key probe. -/
theorem messageTypeV1_no_text (m : Message) (ty : String) (hm : m.text = none)
    (h : messageTypeV1 m = some ty) : ty ≠ "text" := by
  intro hty
  subst hty
  have h1 : m.text.isSome = false := by simp [hm]
  unfold messageTypeV1 at h
  simp only [h1, Bool.false_eq_true, if_false] at h
  split at h
  · simp at h
  · split at h
    · simp at h
    · split at h
      · simp at h
      · simp at h

/-! ## Claim theorems -/

/-- C1: Rate limiter window law for `checkRateLimit`
(`src/index.js` lines 245-259).  For a limiter with `maxMessages = N` and
any window, starting from an empty store for the chat: `N` calls whose
timestamps all lie within one window span are all admitted (all return
`true`); an `(N+1)`th call still within that span is rejected (`false`);
and a later call made at least `windowSeconds` after some retained
timestamp — in particular after the earliest — is admitted again. -/
theorem rate_limiter_window_law (rl : RateLimit) (chat : ChatId) (a b : Int)
    (counter : Counter) (ts : List Int)
    (hN : rl.maxMessages = (ts.length : Int))
    (hw : b - a < rl.timeWindow * 1000)
    (hinit : counter chat = [])
    (hts : ∀ t ∈ ts, a ≤ t ∧ t ≤ b) :
    (runChecks rl counter chat ts).1 = List.replicate ts.length true ∧
    (∀ tnext, a ≤ tnext → tnext ≤ b →
      (checkRateLimit rl (runChecks rl counter chat ts).2 chat tnext).1
        = false) ∧
    (∀ tlate, (∃ u ∈ ts, u + rl.timeWindow * 1000 ≤ tlate) →
      (checkRateLimit rl (runChecks rl counter chat ts).2 chat tlate).1
        = true) := by
  obtain ⟨h1, h2⟩ := runChecks_admits rl chat a b hw ts counter [] hinit
    (by simp [hN]) (by simp) hts
  rw [List.nil_append] at h2
  refine ⟨h1, ?_, ?_⟩
  · intro tnext ha hb
    have hfil : ts.filter (fun u => decide (tnext - u < rl.timeWindow * 1000))
        = ts := by
      apply List.filter_eq_self.mpr
      intro u hu
      have := hts u hu
      simp only [decide_eq_true_eq]
      omega
    unfold checkRateLimit
    simp only [h2, hfil, hN, ge_iff_le, le_refl, if_pos]
  · intro tlate hex
    obtain ⟨u, hu, hul⟩ := hex
    have hlt : ((ts.filter fun v =>
        decide (tlate - v < rl.timeWindow * 1000)).length) < ts.length := by
      apply length_filter_lt_of_mem_not _ ts u hu
      simp only [decide_eq_false_iff_not]
      omega
    unfold checkRateLimit
    simp only [h2]
    have hcond : ¬ (((ts.filter fun timestamp =>
        decide (tlate - timestamp < rl.timeWindow * 1000)).length : Int)
        ≥ rl.maxMessages) := by
      rw [hN]
      omega
    simp only [if_neg hcond]

/-- C1 witness: `maxMessages = 2`, `windowSeconds = 60`; calls at 1000ms and
1500ms are admitted, a call at 2000ms is rejected, a call at 61000ms
(60s after the earliest retained timestamp 1000ms) is admitted again. -/
theorem rate_limiter_window_law_witness :
    (runChecks ⟨2, 60⟩ (fun _ => []) 100 [1000, 1500]).1
      = List.replicate 2 true ∧
    (checkRateLimit ⟨2, 60⟩
      (runChecks ⟨2, 60⟩ (fun _ => []) 100 [1000, 1500]).2 100 2000).1
      = false ∧
    (checkRateLimit ⟨2, 60⟩
      (runChecks ⟨2, 60⟩ (fun _ => []) 100 [1000, 1500]).2 100 61000).1
      = true := by
  have h := rate_limiter_window_law ⟨2, 60⟩ 100 1000 2000 (fun _ => [])
    [1000, 1500] (by decide) (by decide) (by decide)
    (by intro t ht; fin_cases ht <;> constructor <;> decide)
  exact ⟨h.1, h.2.1 2000 (by decide) (by decide),
    h.2.2 61000 ⟨1000, by decide, by decide⟩⟩

/-- C2: Dispatch isolation (`forwardMessage` loop, `src/index.js` lines
647-671, with `cleanForwardMessage` lines 555-629).  For any message with a
sendable content kind, destinations `[A, B, C]` where the send to `B`
fails, and no log channel configured: the loop still attempts exactly one
send to each of `A`, `B` and `C` in order, runs to completion, and records
per-destination outcomes with `B` marked failed and `A`, `C` carrying their
own transport results. -/
theorem dispatch_isolation (cfg : BotConfig) (send : ChatId → Bool)
    (logSend : String → Bool) (m : Message) (ty : String) (A B C : ChatId)
    (hkind : contentKind m = some ty) (hB : send B = false)
    (hlog : cfg.logChannel = "") :
    (forwardLoop cfg send logSend m [A, B, C]).outcomes
      = [(A, send A), (B, false), (C, send C)] ∧
    (forwardLoop cfg send logSend m [A, B, C]).attempts
      = [⟨A, sendOpFor ty⟩, ⟨B, sendOpFor ty⟩, ⟨C, sendOpFor ty⟩] ∧
    (forwardLoop cfg send logSend m [A, B, C]).completed = true := by
  have hcfm : ∀ d, cleanForwardMessage send m d =
      (send d, [⟨d, sendOpFor ty⟩],
        if send d then [] else [.cleanForwardError m.message_id m.chatId d]) := by
    intro d
    simp only [cleanForwardMessage, hkind]
    cases hd : send d <;> simp
  cases hA : send A <;> cases hC : send C <;>
    simp [forwardLoop, hcfm, hA, hB, hC, hlog]

/-- C2 witness: text message, destinations `[200, 300, 400]`, the send to
`300` fails; all three are attempted and the outcomes are
`[success, failure, success]`. -/
theorem dispatch_isolation_witness :
    (forwardLoop ⟨[100], [200, 300, 400], ⟨[], ["text"]⟩, ⟨2, 60⟩, ""⟩
        (fun c => c != 300) (fun _ => true)
        { chatId := 100, message_id := 7, text := some "hello" }
        [200, 300, 400]).outcomes
      = [(200, (fun c => c != 300) 200), (300, false),
         (400, (fun c => c != 300) 400)] ∧
    (forwardLoop ⟨[100], [200, 300, 400], ⟨[], ["text"]⟩, ⟨2, 60⟩, ""⟩
        (fun c => c != 300) (fun _ => true)
        { chatId := 100, message_id := 7, text := some "hello" }
        [200, 300, 400]).attempts
      = [⟨200, sendOpFor "text"⟩, ⟨300, sendOpFor "text"⟩,
         ⟨400, sendOpFor "text"⟩] ∧
    (forwardLoop ⟨[100], [200, 300, 400], ⟨[], ["text"]⟩, ⟨2, 60⟩, ""⟩
        (fun c => c != 300) (fun _ => true)
        { chatId := 100, message_id := 7, text := some "hello" }
        [200, 300, 400]).completed = true :=
  dispatch_isolation _ _ _ _ "text" 200 300 400 (by decide) (by decide) rfl

/-- C3: Routing exclusivity (`forwardMessage`, `src/index.js` lines
632-645).  A message whose chat is not in `sourceChats` produces no
transport attempt and no `message_forwarded` log entry. -/
theorem routing_exclusivity (cfg : BotConfig) (send : ChatId → Bool)
    (logSend : String → Bool) (counter : Counter) (now : Int) (m : Message)
    (h : cfg.sourceChats.contains m.chatId = false) :
    (forwardMessage cfg send logSend counter now m).attempts = [] ∧
    (forwardMessage cfg send logSend counter now m).logs.countP
      LogEvent.isForwarded = 0 := by
  have h' : m.chatId ∉ cfg.sourceChats := by simpa using h
  simp [forwardMessage, h']

/-- C3 witness: a text message from chat 999 with sources `[100]` yields no
attempts and no `message_forwarded` log. -/
theorem routing_exclusivity_witness :
    (forwardMessage ⟨[100], [200, 300], ⟨[], ["text"]⟩, ⟨2, 60⟩, ""⟩
        (fun _ => true) (fun _ => true) (fun _ => []) 5000
        { chatId := 999, message_id := 1, text := some "hi" }).attempts
      = [] ∧
    (forwardMessage ⟨[100], [200, 300], ⟨[], ["text"]⟩, ⟨2, 60⟩, ""⟩
        (fun _ => true) (fun _ => true) (fun _ => []) 5000
        { chatId := 999, message_id := 1, text := some "hi" }).logs.countP
      LogEvent.isForwarded = 0 :=
  routing_exclusivity _ _ _ _ _ _ (by decide)

/-- C4: Keyword filter law (`matchesFilters`, `src/index.js` lines
261-280).  For a text message whose type is allowed: with a non-empty
keyword list the filter passes iff the lowercased text contains some
lowercased keyword as a substring; with an empty keyword list it passes.
For any message probed to a non-text kind that is allowed, keyword
matching is skipped and the filter passes. -/
theorem matchesFilters_keyword_spec (flt : Filters) (m : Message) (s : String)
    (htext : m.text = some s) (hallow : flt.types.contains "text" = true) :
    (flt.keywords ≠ [] →
      (matchesFilters flt m = true ↔
        ∃ k ∈ flt.keywords,
          jsIncludes (toLowerChars s) (toLowerChars k) = true)) ∧
    (flt.keywords = [] → matchesFilters flt m = true) ∧
    (∀ (flt' : Filters) (m' : Message) (ty : String),
      messageTypeV1 m' = some ty → ty ≠ "text" →
      flt'.types.contains ty = true → matchesFilters flt' m' = true) := by
  have hmt : messageTypeV1 m = some "text" := by
    simp [messageTypeV1, htext]
  have hmem : "text" ∈ flt.types := by simpa using hallow
  refine ⟨?_, ?_, ?_⟩
  · intro hne
    have hlen : flt.keywords.length > 0 := List.length_pos.mpr hne
    simp [matchesFilters, hmt, hmem, hlen, htext, List.any_eq_true]
  · intro he
    simp [matchesFilters, hmt, hmem, he]
  · intro flt' m' ty hmt' hne hallow'
    have hmem' : ty ∈ flt'.types := by simpa using hallow'
    have hbeq : (ty == "text") = false := by
      simp [hne]
    simp [matchesFilters, hmt', hmem', hbeq]

/-- C4 witness: keywords `["urgent"]`: the text "URGENT: meeting moved"
passes the filter (case-insensitive substring match). -/
theorem matchesFilters_keyword_spec_witness :
    matchesFilters ⟨["urgent"], ["text"]⟩
      { chatId := 100, message_id := 1,
        text := some "URGENT: meeting moved" } = true :=
  ((matchesFilters_keyword_spec ⟨["urgent"], ["text"]⟩
      { chatId := 100, message_id := 1, text := some "URGENT: meeting moved" }
      "URGENT: meeting moved" rfl (by decide)).1
    (by decide)).mpr ⟨"urgent", by decide, by decide⟩

/-- C5 counterexample: in the `channel_post` handler of `part_002` (lines
917-969) the rate check runs *before* the filter check.  A photo message
from source chat 100 with `allowedTypes = ["text"]` yields zero dispatch
attempts, yet the rate limiter's state for chat 100 changes from `[]` to
`[5000]`: the claim's "leaves the rate limiter's per-chat state unchanged"
is false for this cited handler. -/
theorem channel_post_rate_state_cex :
    (P2.channelPostHandler ⟨[100], [200, 300], ⟨[], ["text"]⟩, ⟨2, 60⟩, ""⟩
        (fun _ => true) (fun _ => []) 5000
        { chatId := 100, message_id := 3, photo := some ["fid"] }).attempts
      = [] ∧
    (P2.channelPostHandler ⟨[100], [200, 300], ⟨[], ["text"]⟩, ⟨2, 60⟩, ""⟩
        (fun _ => true) (fun _ => []) 5000
        { chatId := 100, message_id := 3, photo := some ["fid"] }).counter 100
      = [5000] ∧
    (P2.channelPostHandler ⟨[100], [200, 300], ⟨[], ["text"]⟩, ⟨2, 60⟩, ""⟩
        (fun _ => true) (fun _ => []) 5000
        { chatId := 100, message_id := 3, photo := some ["fid"] }).counter 100
      ≠ [] := by
  refine ⟨by decide, by decide, by decide⟩

/-- C5 (amended): in `forwardMessage` (`src/index.js` lines 632-645) the
filter check does precede the rate check: a message from any chat whose
probed type is not in the allowed types produces zero dispatch attempts and
leaves the rate limiter's map exactly unchanged. -/
theorem filtered_out_skips_rate_state (cfg : BotConfig) (send : ChatId → Bool)
    (logSend : String → Bool) (counter : Counter) (now : Int) (m : Message)
    (hty : ∀ ty, messageTypeV1 m = some ty →
      cfg.filters.types.contains ty = false) :
    (forwardMessage cfg send logSend counter now m).attempts = [] ∧
    (forwardMessage cfg send logSend counter now m).counter = counter := by
  have hm : matchesFilters cfg.filters m = false := by
    unfold matchesFilters
    cases hmt : messageTypeV1 m with
    | none => rfl
    | some ty =>
      have h' : ty ∉ cfg.filters.types := by simpa using hty ty hmt
      simp [h']
  by_cases hsrc : m.chatId ∈ cfg.sourceChats <;>
    simp [forwardMessage, hm, hsrc]

/-- C5 witness: a photo message from source chat 100 with
`allowedTypes = ["text"]` run through `forwardMessage` yields no attempts
and an unchanged counter map. -/
theorem filtered_out_skips_rate_state_witness :
    (forwardMessage ⟨[100], [200, 300], ⟨[], ["text"]⟩, ⟨2, 60⟩, ""⟩
        (fun _ => true) (fun _ => true) (fun _ => []) 5000
        { chatId := 100, message_id := 3, photo := some ["fid"] }).attempts
      = [] ∧
    (forwardMessage ⟨[100], [200, 300], ⟨[], ["text"]⟩, ⟨2, 60⟩, ""⟩
        (fun _ => true) (fun _ => true) (fun _ => []) 5000
        { chatId := 100, message_id := 3, photo := some ["fid"] }).counter
      = (fun _ => []) :=
  filtered_out_skips_rate_state _ _ _ _ _ _
    (by intro ty hty
        have h3 : messageTypeV1
            { chatId := 100, message_id := 3, photo := some ["fid"] }
            = some "photo" := by decide
        rw [h3] at hty
        rcases Option.some_inj.mp hty with rfl
        decide)

/-- C6 counterexample: a message with no recognized content key ("Other")
given straight to the dispatch loop (`src/index.js` lines 647-671):
no send is attempted, but `cleanForwardMessage` falls through to
`return true`, so the loop records a per-destination success outcome and a
`message_forwarded` log entry — the claim's "no per-destination outcome is
recorded" is false. -/
theorem dispatch_other_outcome_cex :
    (forwardLoop ⟨[100], [200], ⟨[], ["text"]⟩, ⟨2, 60⟩, ""⟩
        (fun _ => true) (fun _ => true)
        { chatId := 100, message_id := 9 } [200]).attempts = [] ∧
    (forwardLoop ⟨[100], [200], ⟨[], ["text"]⟩, ⟨2, 60⟩, ""⟩
        (fun _ => true) (fun _ => true)
        { chatId := 100, message_id := 9 } [200]).outcomes = [(200, true)] ∧
    (forwardLoop ⟨[100], [200], ⟨[], ["text"]⟩, ⟨2, 60⟩, ""⟩
        (fun _ => true) (fun _ => true)
        { chatId := 100, message_id := 9 } [200]).logs.countP
      LogEvent.isForwarded = 1 := by
  refine ⟨by decide, by decide, by decide⟩

/-- C6 (amended): for a message of unrecognized kind reaching the dispatch
loop with no log channel set, no send is ever attempted for any
destination, but each destination is recorded as a success: the loop emits
one `message_forwarded` log entry per destination instead of skipping
silently. -/
theorem dispatch_other_records_success (cfg : BotConfig)
    (send : ChatId → Bool) (logSend : String → Bool) (m : Message)
    (hkind : contentKind m = none) (hlog : cfg.logChannel = "") :
    ∀ dests : List ChatId,
      (forwardLoop cfg send logSend m dests).attempts = [] ∧
      (forwardLoop cfg send logSend m dests).outcomes
        = dests.map (fun d => (d, true)) ∧
      (forwardLoop cfg send logSend m dests).logs
        = dests.map (fun d =>
            .messageForwarded m.chatId d m.message_id (messageTypeFull m)) := by
  intro dests
  induction dests with
  | nil => simp [forwardLoop]
  | cons d rest ih =>
    simp [forwardLoop, cleanForwardMessage, hkind, hlog, ih.1, ih.2.1, ih.2.2]

/-- C6 amended-claim witness: concrete Other-kind message over two
destinations. -/
theorem dispatch_other_records_success_witness :
    (forwardLoop ⟨[100], [200, 300], ⟨[], ["text"]⟩, ⟨2, 60⟩, ""⟩
        (fun _ => true) (fun _ => true)
        { chatId := 100, message_id := 9 } [200, 300]).attempts = [] ∧
    (forwardLoop ⟨[100], [200, 300], ⟨[], ["text"]⟩, ⟨2, 60⟩, ""⟩
        (fun _ => true) (fun _ => true)
        { chatId := 100, message_id := 9 } [200, 300]).outcomes
      = [200, 300].map (fun d => (d, true)) ∧
    (forwardLoop ⟨[100], [200, 300], ⟨[], ["text"]⟩, ⟨2, 60⟩, ""⟩
        (fun _ => true) (fun _ => true)
        { chatId := 100, message_id := 9 } [200, 300]).logs
      = [200, 300].map (fun d =>
          .messageForwarded 100 d 9 (messageTypeFull
            { chatId := 100, message_id := 9 })) :=
  dispatch_other_records_success _ _ _ _ (by decide) rfl [200, 300]

/-- C7: Filter totality (`matchesFilters`, `src/index.js` lines 261-280).
The evaluator with its fallible `msg.text` access made explicit
(`matchesFiltersE`) never reaches the throwing branch on any well-formed
message: it always returns `ok` of the boolean the total function computes.
A message with no recognized content key at all is treated as no match
(`false`). -/
theorem matchesFilters_total :
    (∀ (flt : Filters) (m : Message),
      matchesFiltersE flt m = .ok (matchesFilters flt m)) ∧
    (∀ (flt : Filters) (m : Message),
      messageTypeV1 m = none → matchesFilters flt m = false) := by
  constructor
  · intro flt m
    cases hm : m.text with
    | some s =>
      have hmt : messageTypeV1 m = some "text" := by simp [messageTypeV1, hm]
      simp only [matchesFiltersE, matchesFilters, hmt, hm, Option.getD_some]
      split
      · rfl
      · split
        · rfl
        · rfl
    | none =>
      cases hmt : messageTypeV1 m with
      | none => simp only [matchesFiltersE, matchesFilters, hmt]
      | some ty =>
        have hne : ty ≠ "text" := messageTypeV1_no_text m ty hm hmt
        have hbeq : (ty == "text") = false := by simp [hne]
        simp only [matchesFiltersE, matchesFilters, hmt, hbeq, Bool.false_and,
          Bool.false_eq_true, if_false]
        split
        · rfl
        · rfl
  · intro flt m h
    simp [matchesFilters, h]

/-- C7 witness: a message with empty text and non-empty keywords evaluates
without error to `false`, and a message with no content key is no match. -/
theorem matchesFilters_total_witness :
    matchesFiltersE ⟨["urgent"], ["text"]⟩
        { chatId := 100, message_id := 1, text := some "" }
      = .ok (matchesFilters ⟨["urgent"], ["text"]⟩
        { chatId := 100, message_id := 1, text := some "" }) ∧
    matchesFilters ⟨["urgent"], ["text"]⟩ { chatId := 100, message_id := 1 }
      = false :=
  ⟨matchesFilters_total.1 ⟨["urgent"], ["text"]⟩
      { chatId := 100, message_id := 1, text := some "" },
    matchesFilters_total.2 ⟨["urgent"], ["text"]⟩
      { chatId := 100, message_id := 1 } (by decide)⟩

/-- C8 counterexample: with a well-formed bot token but
`RATE_LIMIT_MAX = "-5"` and `RATE_LIMIT_WINDOW = "-7"`, startup does not
refuse: it starts with `maxMessages = -5` and `timeWindow = -7`.  The
claim that malformed rate-limit configuration fails startup validation is
false — neither `loadConfig` (`src/config.js` lines 7-30) nor the
initialization (`src/index.js` lines 34-55) checks these fields. -/
theorem startup_accepts_bad_rate_limit_cex :
    startup ⟨some "123456:ABCDEFGHIJKLMNOPQRSTUVWXYZabcd",
        some "-5", some "-7"⟩
      = .started ⟨⟨some (-5), some (-7)⟩⟩ := by
  decide

/-- C8 (amended): startup validation covers only the bot token — a missing
token refuses startup, and any well-formed token starts the bot with
whatever rate-limit values the environment produced, with no range or sign
check. -/
theorem startup_validates_only_token (env : Env) :
    (env.botToken = none →
      startup env = .refused "BOT_TOKEN environment variable is required") ∧
    (∀ tok, env.botToken = some tok → tok ≠ "" →
      isValidBotToken (String.mk (trimChars tok.toList)) = true →
      startup env = .started (loadConfig env)) := by
  constructor
  · intro h
    simp [startup, h]
  · intro tok htok hne hvalid
    have hbeq : (tok == "") = false := by simp [hne]
    simp only [startup, htok, hbeq, Bool.false_eq_true, if_false, hvalid,
      if_true]

/-- C8 amended-claim witness: missing token refuses; a valid token with a
negative rate-limit window starts. -/
theorem startup_validates_only_token_witness :
    startup ⟨none, some "-5", some "-7"⟩
      = .refused "BOT_TOKEN environment variable is required" ∧
    startup ⟨some "123456:ABCDEFGHIJKLMNOPQRSTUVWXYZabcd", none, some "-7"⟩
      = .started (loadConfig
        ⟨some "123456:ABCDEFGHIJKLMNOPQRSTUVWXYZabcd", none, some "-7"⟩) :=
  ⟨(startup_validates_only_token ⟨none, some "-5", some "-7"⟩).1 rfl,
    (startup_validates_only_token
        ⟨some "123456:ABCDEFGHIJKLMNOPQRSTUVWXYZabcd", none, some "-7"⟩).2
      "123456:ABCDEFGHIJKLMNOPQRSTUVWXYZabcd" rfl (by decide) (by decide)⟩

/-- C9: Memory bound of the second-variant rate limiter
(`src/index.js` lines 1119-1139).  For any sequence of calls on any chats
starting from the empty map, and a positive `maxMessages`, every chat's
retained timestamp sequence stays within `2 * maxMessages` entries (in
fact within `maxMessages`): storage never grows unboundedly. -/
theorem rate_window_state_bounded (rl : RateLimit) (hm : 1 ≤ rl.maxMessages)
    (calls : List (ChatId × Int)) :
    ∀ c, (((runChecksV2 rl (fun _ => []) calls) c).length : Int)
      ≤ 2 * rl.maxMessages := by
  intro c
  have := runChecksV2_inv rl calls (fun _ => []) (by intro c; simp; omega) c
  omega

/-- C9 witness: five calls for chat 100 under `maxMessages = 2` leave at
most four stored entries. -/
theorem rate_window_state_bounded_witness :
    (((runChecksV2 ⟨2, 60⟩ (fun _ => [])
        [(100, 0), (100, 1), (100, 2), (100, 3), (100, 100000)]) 100).length
      : Int) ≤ 2 * (⟨2, 60⟩ : RateLimit).maxMessages :=
  rate_window_state_bounded ⟨2, 60⟩ (by decide)
    [(100, 0), (100, 1), (100, 2), (100, 3), (100, 100000)] 100

/-- C10: A rejected `checkRateLimit` call (`src/index.js` lines 245-259)
leaves the stored map exactly as it was: the pruned list is a fresh array
and `messageCounter.set` is never reached on the `false` path, so nothing
is recorded, added, removed or pruned in the store. -/
theorem rejected_leaves_state (rl : RateLimit) (counter : Counter)
    (chat : ChatId) (now : Int)
    (h : (checkRateLimit rl counter chat now).1 = false) :
    (checkRateLimit rl counter chat now).2 = counter := by
  simp only [checkRateLimit] at h ⊢
  split at h
  · next hc =>
    simp only [if_pos hc]
  · simp at h

/-- C10 witness: `maxMessages = 1` with one recent stored entry: the call
at 600ms is rejected and the map is returned unchanged. -/
theorem rejected_leaves_state_witness :
    (checkRateLimit ⟨1, 60⟩ (fun c => if c = 100 then [500] else [])
      100 600).1 = false ∧
    (checkRateLimit ⟨1, 60⟩ (fun c => if c = 100 then [500] else [])
      100 600).2 = (fun c => if c = 100 then [500] else []) :=
  ⟨by decide,
    rejected_leaves_state ⟨1, 60⟩ (fun c => if c = 100 then [500] else [])
      100 600 (by decide)⟩

end Bots
